import Mathlib

/-!
Verification of the geometry-planning and partition-layout core of
`pve-ct-to-vm-img` (`src/main.rs`), a tool that wraps a raw filesystem image
in a GPT partition table with configurable leading padding and an optional
EFI System Partition (ESP).

The embedding mirrors `main` and `format_esp_partition`:

* All sizes and sector counts are Rust `u64` values.  They are modelled as
  `Nat` together with explicit wrap-around (`% 2^64`) at every operation that
  can overflow or underflow in release builds (`add64`, `sub64`, `mul64`).
* The one floating-point computation, `(input_len as f64 / lba as f64).ceil()
  as u64` (line 77), is modelled exactly: see `toF64` and `data_lbas` below.
* `main`'s observable effects on the output file are modelled as a trace of
  `Event`s, produced in the order the source performs them, together with the
  `RunError` (if any) at which the run aborts (`run` below).
* The GPT collaborator (`gpt` crate) and FAT formatter (`fatfs` crate) are
  external; only their interface behaviour used by the source is modelled:
  the entry map read back after `add_partition` (arbitrary collaborator-chosen
  placement and GUID, overridden by lines 178–215), and the sector-size guard
  at the top of `format_esp_partition` (lines 294–296).  `run` treats the
  collaborator's own `?`-propagated calls as succeeding; `espBranch` refines
  the ESP path with their possible failure made explicit, since a partition
  that cannot be placed on the device makes `add_partition` return an error
  that aborts the run.
* The copy loop (lines 254–265) is modelled over byte lists: `copyLoop`.
-/

/-- `2^64`, the modulus of Rust `u64` arithmetic. -/
def U : Nat := 18446744073709551616

/-- Wrapping `u64` addition (release-build semantics). -/
def add64 (x y : Nat) : Nat := (x + y) % U

/-- Wrapping `u64` subtraction (release-build semantics); for `x, y < U` this
is `x - y` when `y ≤ x` and `x + 2^64 - y` otherwise. -/
def sub64 (x y : Nat) : Nat := (x + U - y % U) % U

/-- Wrapping `u64` multiplication (release-build semantics). -/
def mul64 (x y : Nat) : Nat := (x * y) % U

/-- The command-line parameters relevant to geometry planning
(`Args.pad_mib`, `Args.esp`, `Args.lba` in the source; `input`/`output` paths
only name files and are omitted). -/
structure Args where
  pad_mib : Nat
  esp : Bool
  lba : Nat
deriving DecidableEq

/-- `PART_NAME_ESP` (line 14). -/
def PART_NAME_ESP : String := "efiesp"

/-- `PART_NAME_LINUX` (line 15). -/
def PART_NAME_LINUX : String := "linux"

/-- `PART_UUID_ESP` (line 18): the fixed partition GUID for the ESP role. -/
def PART_UUID_ESP : String := "dd72ae4a-b812-4f7c-b59f-2bc5395d3aab"

/-- `PART_UUID_LINUX` (line 19): the fixed partition GUID for the data role. -/
def PART_UUID_LINUX : String := "1f64a68b-eb12-443b-a55e-5aad64c3b432"

/-- The message of the `anyhow::bail!` at lines 143–145. -/
def insufficientPaddingMsg : String :=
  "Padding is too small to contain an EFI System Partition. Increase --pad-mib."

/-- `let pad_bytes = args.pad_mib * 1024 * 1024;` (line 73), left-associated
wrapping `u64` multiplication. -/
def pad_bytes (a : Args) : Nat := mul64 (mul64 a.pad_mib 1024) 1024

/-- `let padding_lbas = pad_bytes / args.lba;` (line 76), truncating `u64`
division. -/
def padding_lbas (a : Args) : Nat := pad_bytes a / a.lba

/-- The number of low bits an IEEE-754 double drops when representing `n`
with a 53-bit significand: the least `k` with `n < 2^(53+k)` (`n < 2^64`,
so `k ≤ 11`). -/
def dropBits (n : Nat) : Nat :=
  (((List.range 12).find? (fun k => decide (n < 2 ^ (53 + k))))).getD 11

/-- Exact model of Rust's `u64`-to-`f64` cast (`input_len as f64`, line 77):
round to nearest representable double, ties to even significand.  A value
`n ≤ 2^53` is exactly representable and unchanged; otherwise `n` is rounded
to the nearest multiple of `2^k` (`k = dropBits n`), a tie going to the even
quotient. -/
def toF64 (n : Nat) : Nat :=
  if n ≤ 2 ^ 53 then n
  else
    let k := dropBits n
    let q := n / 2 ^ k
    let r := n % 2 ^ k
    let h := 2 ^ (k - 1)
    if r < h then q * 2 ^ k
    else if h < r then (q + 1) * 2 ^ k
    else if q % 2 = 0 then q * 2 ^ k else (q + 1) * 2 ^ k

/-- `let data_lbas = (input_len as f64 / args.lba as f64).ceil() as u64;`
(line 77).  For `lba ∈ {512, 4096}` (a power of two) the double division only
shifts the exponent and is exact, `.ceil()` of a representable value is the
exact integer ceiling (an integer `< 2^55`, hence representable), and the
`as u64` cast of that integral value is exact.  The pipeline therefore equals
the integer ceiling `⌈toF64 input_len / lba⌉`. -/
def data_lbas (input_len lba : Nat) : Nat := (toF64 input_len + lba - 1) / lba

/-- `let footer_lbas = (1024 * 1024) / args.lba;` (line 81). -/
def footer_lbas (a : Args) : Nat := 1048576 / a.lba

/-- `let total_lbas = padding_lbas + data_lbas + footer_lbas;` (line 83). -/
def total_lbas (a : Args) (input_len : Nat) : Nat :=
  add64 (add64 (padding_lbas a) (data_lbas input_len a.lba)) (footer_lbas a)

/-- `let total_bytes = total_lbas * args.lba;` (line 84). -/
def total_bytes (a : Args) (input_len : Nat) : Nat :=
  mul64 (total_lbas a input_len) a.lba

/-- `let data_start_lba = padding_lbas;` (line 131). -/
def data_start_lba (a : Args) : Nat := padding_lbas a

/-- `let data_end_lba = data_start_lba + data_lbas - 1;` (line 132);
the `u64` subtraction wraps when `data_start_lba + data_lbas = 0`. -/
def data_end_lba (a : Args) (input_len : Nat) : Nat :=
  sub64 (add64 (data_start_lba a) (data_lbas input_len a.lba)) 1

/-- `let esp_start_lba = (1024 * 1024) / args.lba;` (line 138). -/
def esp_start_lba (a : Args) : Nat := 1048576 / a.lba

/-- `let esp_end_lba = data_start_lba - 1;` (line 140); the `u64` subtraction
wraps to `2^64 - 1` when `data_start_lba = 0`. -/
def esp_end_lba (a : Args) : Nat := sub64 (data_start_lba a) 1

/-- `let esp_size_bytes = (esp_end_lba - esp_start_lba + 1) * args.lba;`
(line 148). -/
def esp_size_bytes (a : Args) : Nat :=
  mul64 (add64 (sub64 (esp_end_lba a) (esp_start_lba a)) 1) a.lba

/-- The observable effects of `main` on the output file, in program order:
creating/truncating it (lines 99–105), setting its length (lines 108–110),
committing the GPT (line 218), the call into `format_esp_partition` with its
`(start_offset, size_bytes, lba_size)` arguments (lines 223–228), and seeking
to the data offset and copying (lines 239–265). -/
inductive Event where
  | createTruncateOutput : Event
  | setLen : Nat → Event
  | gptWrite : Event
  | formatEspCall : Nat → Nat → Nat → Event
  | copyData : Nat → Event
deriving DecidableEq

/-- The fatal errors of the modelled paths: the LBA validation bail
(line 61), the insufficient-padding bail (lines 143–145) carrying its
message, and the sector-size bail inside `format_esp_partition` (line 295). -/
inductive RunError where
  | invalidLba : RunError
  | insufficientPadding : String → RunError
  | fatLbaLimit : RunError
deriving DecidableEq

/-- The guard at the top of `format_esp_partition` (lines 294–296):
`if lba_size > u16::MAX as u64 { bail }`; the remainder of the function
delegates to the `fatfs` collaborator. -/
def format_esp_partition (lba_size : Nat) : Option RunError :=
  if 65535 < lba_size then some RunError.fatLbaLimit else none

/-- `data_start_lba * args.lba`, the byte offset the copy step seeks to
(line 240) — `dataStart = paddingSectors * logicalBlockSize`. -/
def data_start_byte (a : Args) : Nat := mul64 (data_start_lba a) a.lba

/-- The control flow of `main` as a trace of `Event`s plus the error (if any)
at which the run aborts, following the source order exactly: validate the
LBA (lines 60–62, before the output file exists); create/truncate the output
and set its length (lines 99–110); if ESP was requested, bail with the
insufficient-padding message when `esp_end_lba <= esp_start_lba` (lines
142–146), else commit the GPT (line 218) and call `format_esp_partition`
(lines 221–230); without ESP, commit the GPT; finally copy the input to byte
offset `data_start_lba * args.lba` (line 240). -/
def run (a : Args) (input_len : Nat) : List Event × Option RunError :=
  if a.lba ≠ 512 ∧ a.lba ≠ 4096 then ([], some RunError.invalidLba)
  else
    let ev0 := [Event.createTruncateOutput, Event.setLen (total_bytes a input_len)]
    if a.esp then
      if esp_end_lba a ≤ esp_start_lba a then
        (ev0, some (RunError.insufficientPadding insufficientPaddingMsg))
      else
        let call := Event.formatEspCall (mul64 (esp_start_lba a) a.lba) (esp_size_bytes a) a.lba
        match format_esp_partition a.lba with
        | some e => (ev0 ++ [Event.gptWrite, call], some e)
        | none =>
          (ev0 ++ [Event.gptWrite, call, Event.copyData (data_start_byte a)], none)
    else
      (ev0 ++ [Event.gptWrite, Event.copyData (data_start_byte a)], none)

/-- The possible outcomes of the ESP branch of `main` (lines 135–219): the
insufficient-padding bail (lines 142–146), a collaborator error propagated
by a `?` (the `add_partition` calls at lines 160–173; also
`update_partitions`/`write`), or a committed ESP entry carrying the
overridden first/last sectors (lines 181–182). -/
inductive EspOutcome where
  | bailInsufficientPadding : EspOutcome
  | collaboratorError : EspOutcome
  | committed : Nat → Nat → EspOutcome
deriving DecidableEq

/-- The ESP branch of `main` (lines 135–219) with the partition-table
collaborator's fallibility made explicit (`run` abstracts those `?` sites as
always succeeding).  After the guard at line 142, `main` asks the external
`gpt` collaborator to add an ESP-sized entry (lines 160–162) and then a
data-sized entry (lines 165–173); each call either returns an entry or
fails, which the booleans `esp_ok` and `data_ok` record — the collaborator
is external, so its success or failure is an input of the model, and a
failure propagates through `?` and aborts the run.  On success the override
step commits the planner's exact ESP sectors (lines 178–192). -/
def espBranch (a : Args) (esp_ok data_ok : Bool) : EspOutcome :=
  if esp_end_lba a ≤ esp_start_lba a then EspOutcome.bailInsufficientPadding
  else if esp_ok then
    if data_ok then EspOutcome.committed (esp_start_lba a) (esp_end_lba a)
    else EspOutcome.collaboratorError
  else EspOutcome.collaboratorError

/-- The fields of the `gpt` crate's `Partition` entry that the source reads
or writes (lines 178–215): the partition type GUID and name chosen by the
`add_partition` calls, and the placement (`first_lba`, `last_lba`) and
partition GUID (`part_guid`) that `add_partition`'s own allocation policy
assigned (the GUID is random, since `None` is passed for it). -/
structure GptPartition where
  part_type_guid : String
  part_guid : String
  first_lba : Nat
  last_lba : Nat
  name : String
deriving DecidableEq

/-- Lines 178–192 (`// Manually enforce exact LBAs`), ESP case: read back the
partition map and overwrite entry 1 (the ESP added first) and entry 2 (the
data partition added second) with the planner's exact start/end sectors and
the fixed role GUIDs, keeping whatever else the collaborator stored.
`p1`/`p2` are the entries as the collaborator returned them, with its own
auto-chosen placement and random partition GUIDs. -/
def enforceExactLbasEsp (a : Args) (input_len : Nat) (p1 p2 : GptPartition) :
    GptPartition × GptPartition :=
  ({ p1 with
      first_lba := esp_start_lba a
      last_lba := esp_end_lba a
      part_guid := PART_UUID_ESP },
   { p2 with
      first_lba := data_start_lba a
      last_lba := data_end_lba a input_len
      part_guid := PART_UUID_LINUX })

/-- Lines 207–212 (`// Manually enforce start at padding`), no-ESP case:
overwrite entry 1 (the sole data partition) with the planner's exact
start/end sectors and the fixed Linux-data GUID. -/
def enforceExactLbasNoEsp (a : Args) (input_len : Nat) (p1 : GptPartition) :
    GptPartition :=
  { p1 with
      first_lba := data_start_lba a
      last_lba := data_end_lba a input_len
      part_guid := PART_UUID_LINUX }

/-- The effect of `writer.write_all(..)` at byte position `pos` on the output
file modelled as a byte list: splice `data` over `out` at offset `pos`. -/
def writeAt (out : List Nat) (pos : Nat) (data : List Nat) : List Nat :=
  out.take pos ++ data ++ out.drop (pos + data.length)

/-- The copy loop (lines 257–265): repeatedly read up to 65536 bytes from the
input and `write_all` them at the current output position, until end of
input.  Modelled over byte lists; the reader yields `inp.take 65536` per
iteration (a full buffer until the tail), the writer position advances by the
chunk length. -/
def copyLoop (inp out : List Nat) (pos : Nat) : List Nat :=
  if h : inp = [] then out
  else
    copyLoop (inp.drop 65536) (writeAt out pos (inp.take 65536))
      (pos + (inp.take 65536).length)
termination_by inp.length
decreasing_by
  simp only [List.length_drop]
  exact Nat.sub_lt (List.length_pos.mpr h) (by decide)

/-- C4: Scenario A — `inputLengthBytes = 10485760`, `padMiB = 1024`,
`lba = 512`, no ESP: `dataSectors = 20480`, `paddingSectors = 2097152`,
`footerSectors = 2048`, `totalSectors = 2119680`, and the data partition
spans sectors 2097152 through 2117631 inclusive. -/
theorem c4_scenario_a :
    data_lbas 10485760 512 = 20480 ∧
    padding_lbas ⟨1024, false, 512⟩ = 2097152 ∧
    footer_lbas ⟨1024, false, 512⟩ = 2048 ∧
    total_lbas ⟨1024, false, 512⟩ 10485760 = 2119680 ∧
    data_start_lba ⟨1024, false, 512⟩ = 2097152 ∧
    data_end_lba ⟨1024, false, 512⟩ 10485760 = 2117631 := by
  refine ⟨?_, ?_, ?_, ?_, ?_, ?_⟩ <;> decide

/-- A validated block size falsifies the bail condition of lines 60–62. -/
theorem valid_lba_not_ne (a : Args) (h : a.lba = 512 ∨ a.lba = 4096) :
    ¬(a.lba ≠ 512 ∧ a.lba ≠ 4096) := by
  rcases h with h | h <;> simp [h]

/-- 512 divides `2^64`. -/
theorem dvd512U : (512 : Nat) ∣ U := ⟨36028797018963968, by norm_num [U]⟩

/-- 4096 divides `2^64`. -/
theorem dvd4096U : (4096 : Nat) ∣ U := ⟨4503599627370496, by norm_num [U]⟩

/-- `pad_bytes` is a `u64` value. -/
theorem pad_bytes_lt (a : Args) : pad_bytes a < U := by
  unfold pad_bytes mul64
  exact Nat.mod_lt _ (by decide)

/-- `padding_lbas` is a `u64` value. -/
theorem padding_lbas_lt (a : Args) : padding_lbas a < U :=
  lt_of_le_of_lt (Nat.div_le_self _ _) (pad_bytes_lt a)

/-- Writing nothing leaves the file unchanged. -/
theorem writeAt_nil (out : List Nat) (pos : Nat) : writeAt out pos [] = out := by
  simp [writeAt]

/-- An in-bounds write does not change the file length. -/
theorem writeAt_length (out data : List Nat) (pos : Nat)
    (h : pos + data.length ≤ out.length) :
    (writeAt out pos data).length = out.length := by
  simp only [writeAt, List.length_append, List.length_take, List.length_drop]
  omega

/-- Two consecutive in-bounds writes amount to one write of the
concatenation. -/
theorem writeAt_append (out c r : List Nat) (pos : Nat) (h : pos ≤ out.length) :
    writeAt out pos (c ++ r) = writeAt (writeAt out pos c) (pos + c.length) r := by
  have ht : (out.take pos ++ c).length = pos + c.length := by
    simp [List.length_take, Nat.min_eq_left h]
  unfold writeAt
  rw [List.take_left' ht]
  have hd : (out.take pos ++ c ++ out.drop (pos + c.length)).drop
      (pos + c.length + r.length) = out.drop (pos + c.length + r.length) := by
    rw [show pos + c.length + r.length = (out.take pos ++ c).length + r.length by rw [ht]]
    rw [List.drop_append]
    rw [List.drop_drop]
    congr 1
    omega
  rw [hd]
  simp only [List.length_append, List.append_assoc, Nat.add_assoc]

/-- The copy loop as one splice: feeding `inp` chunkwise through the loop at
position `pos` writes `inp` verbatim at `pos`. -/
theorem copyLoop_eq_writeAt :
    ∀ (n : Nat) (inp out : List Nat) (pos : Nat), inp.length ≤ n →
      pos + inp.length ≤ out.length → copyLoop inp out pos = writeAt out pos inp := by
  intro n
  induction n with
  | zero =>
    intro inp out pos hn _
    have he : inp = [] := List.eq_nil_of_length_eq_zero (Nat.le_zero.mp hn)
    subst he
    rw [copyLoop]
    simp [writeAt_nil]
  | succ n ih =>
    intro inp out pos hn hb
    rw [copyLoop]
    by_cases he : inp = []
    · subst he
      simp [writeAt_nil]
    · rw [dif_neg he]
      have hpos : 0 < inp.length := List.length_pos.mpr he
      have htk : (inp.take 65536).length = min 65536 inp.length := List.length_take _ _
      have hdp : (inp.drop 65536).length = inp.length - 65536 := List.length_drop _ _
      have hb1 : pos + (inp.take 65536).length ≤ out.length := by omega
      have hlen : (writeAt out pos (inp.take 65536)).length = out.length :=
        writeAt_length _ _ _ hb1
      rw [ih (inp.drop 65536) _ _ (by omega) (by omega)]
      rw [← writeAt_append out _ _ pos (by omega)]
      rw [List.take_append_drop]

/-- C3 (counterexample): at `input_len = 2^53 + 1` and `lba = 512` the
computed `data_lbas` is `2^44`, but the exact integer ceiling
`⌈(2^53 + 1) / 512⌉ = (2^53 + 1 + 511) / 512` is `2^44 + 1`: the `f64` cast
rounds `2^53 + 1` down to `2^53` (tie to even significand), so the claimed
identity fails for this 64-bit input length. -/
theorem c3_data_sectors_counterexample :
    data_lbas 9007199254740993 512 = 17592186044416 ∧
    (9007199254740993 + 512 - 1) / 512 = 17592186044417 ∧
    data_lbas 9007199254740993 512 ≠ (9007199254740993 + 512 - 1) / 512 := by
  refine ⟨by decide, by decide, by decide⟩

/-- C3 (amended): for every input length that is at most `2^53` (hence exactly
representable as an `f64`) and every accepted logical block size (512 or
4096), the computed number of data sectors equals the exact integer ceiling
`⌈input_len / lba⌉ = (input_len + lba - 1) / lba`. -/
theorem c3_data_sectors_exact_ceiling (input_len lba : Nat)
    (hlen : input_len ≤ 2 ^ 53) (hlba : lba = 512 ∨ lba = 4096) :
    data_lbas input_len lba = (input_len + lba - 1) / lba := by
  unfold data_lbas toF64
  rw [if_pos hlen]

/-- C3 witness: the amended theorem applied at a concrete input. -/
theorem c3_data_sectors_exact_ceiling_witness :
    data_lbas 10485761 512 = (10485761 + 512 - 1) / 512 :=
  c3_data_sectors_exact_ceiling 10485761 512 (by decide) (Or.inl rfl)

/-- C9 (counterexample): at `padMiB = 2^44` the `u64` product
`pad_mib * 1024 * 1024` wraps to 0, so `paddingSectors = 0` and
`paddingSectors * lba = 0`, which differs from the exact product
`padMiB * 1 MiB = 2^64`: the claimed identity fails for this `padMiB`. -/
theorem c9_padding_counterexample :
    padding_lbas ⟨17592186044416, false, 512⟩ * 512 = 0 ∧
    padding_lbas ⟨17592186044416, false, 512⟩ * 512 ≠ 17592186044416 * 1048576 := by
  refine ⟨by decide, by decide⟩

/-- C9 (amended): for every accepted block size (512 or 4096) the wrapped
`u64` value `pad_bytes` is exactly divisible by the block size, so the
truncating division loses nothing: `paddingSectors * lba = pad_bytes`
always, and whenever `padMiB * 1 MiB` does not overflow a `u64`
(`padMiB < 2^44`) it equals `padMiB * 1 MiB` exactly. -/
theorem c9_padding_division_exact (a : Args) (hlba : a.lba = 512 ∨ a.lba = 4096) :
    padding_lbas a * a.lba = pad_bytes a ∧
    (a.pad_mib * 1048576 < U → padding_lbas a * a.lba = a.pad_mib * 1048576) := by
  have hpb : pad_bytes a = (a.pad_mib * 1048576) % U := by
    unfold pad_bytes mul64
    rw [Nat.mod_mul_mod, Nat.mul_assoc]
  have hdvd : a.lba ∣ pad_bytes a := by
    rw [hpb]
    rcases hlba with h | h <;> rw [h]
    · exact (Nat.dvd_mod_iff dvd512U).mpr ⟨a.pad_mib * 2048, by ring⟩
    · exact (Nat.dvd_mod_iff dvd4096U).mpr ⟨a.pad_mib * 256, by ring⟩
  refine ⟨Nat.div_mul_cancel hdvd, ?_⟩
  intro hlt
  unfold padding_lbas
  rw [Nat.div_mul_cancel hdvd, hpb, Nat.mod_eq_of_lt hlt]

/-- C9 witness: the amended theorem applied at a concrete input. -/
theorem c9_padding_division_exact_witness :
    padding_lbas ⟨1024, false, 512⟩ * 512 = 1024 * 1048576 :=
  (c9_padding_division_exact ⟨1024, false, 512⟩ (Or.inl rfl)).2 (by decide)

/-- C8: for a zero-length input the data sector count is 0, so
`data_end_lba = data_start_lba + 0 - 1` subtracts 1 from `data_start_lba`
with no guard: the `u64` subtraction wraps to `2^64 - 1` when the padding is
also zero, and otherwise yields an end sector strictly below the start
sector; and the program has no check rejecting zero-length input — with a
valid block size and no ESP the run completes without error. -/
theorem c8_zero_length_input (a : Args) (hlba : a.lba = 512 ∨ a.lba = 4096) :
    data_lbas 0 a.lba = 0 ∧
    data_end_lba a 0 = sub64 (data_start_lba a) 1 ∧
    (padding_lbas a = 0 → data_end_lba a 0 = U - 1) ∧
    (0 < padding_lbas a → data_end_lba a 0 < data_start_lba a) ∧
    (a.esp = false → (run a 0).2 = none) := by
  have hz : data_lbas 0 a.lba = 0 := by
    rcases hlba with h | h <;> rw [h] <;> decide
  have hlt : padding_lbas a < U := padding_lbas_lt a
  have hadd : add64 (data_start_lba a) (data_lbas 0 a.lba) = data_start_lba a := by
    rw [hz]
    unfold add64
    exact Nat.mod_eq_of_lt (by simpa [data_start_lba] using hlt)
  have hend : data_end_lba a 0 = sub64 (data_start_lba a) 1 := by
    unfold data_end_lba
    rw [hadd]
  refine ⟨hz, hend, ?_, ?_, ?_⟩
  · intro h0
    rw [hend]
    show sub64 (padding_lbas a) 1 = U - 1
    rw [h0]
    decide
  · intro hpos
    rw [hend]
    show sub64 (padding_lbas a) 1 < padding_lbas a
    have hp : padding_lbas a < 18446744073709551616 := by
      simpa [U] using hlt
    simp only [sub64, U]
    omega
  · intro hesp
    simp [run, valid_lba_not_ne a hlba, hesp]

/-- C8 witness: the theorem applied at `padMiB = 0`, `lba = 512`, no ESP. -/
theorem c8_zero_length_input_witness :
    data_lbas 0 512 = 0 ∧
    data_end_lba ⟨0, false, 512⟩ 0 = U - 1 ∧
    (run ⟨0, false, 512⟩ 0).2 = none := by
  have h := c8_zero_length_input ⟨0, false, 512⟩ (Or.inl rfl)
  have hp : padding_lbas ⟨0, false, 512⟩ = 0 := by decide
  exact ⟨h.1, h.2.2.1 hp, h.2.2.2.2 rfl⟩

/-- C1 (counterexample): with `padMiB = 1`, `lba = 512` and an ESP requested,
geometry planning fails (insufficient padding), yet the output file has
already been created and truncated (and sized) before the failure is
reported: the claimed "no write before any planning failure" is false. -/
theorem c1_counterexample :
    (run ⟨1, true, 512⟩ 10485760).2 =
      some (RunError.insufficientPadding insufficientPaddingMsg) ∧
    Event.createTruncateOutput ∈ (run ⟨1, true, 512⟩ 10485760).1 := by
  refine ⟨by decide, by decide⟩

/-- C1 (amended): the invalid-block-size failure occurs before any write —
the run aborts with an empty event trace; the insufficient-padding ESP
failure, by contrast, is reported only after the output file has been
created, truncated, and set to its final length (though before the partition
table is committed). -/
theorem c1_failure_ordering :
    (∀ (a : Args) (input_len : Nat), (a.lba ≠ 512 ∧ a.lba ≠ 4096) →
        run a input_len = ([], some RunError.invalidLba)) ∧
    (∀ (a : Args) (input_len : Nat), a.esp = true →
        (a.lba = 512 ∨ a.lba = 4096) → esp_end_lba a ≤ esp_start_lba a →
        run a input_len =
          ([Event.createTruncateOutput, Event.setLen (total_bytes a input_len)],
           some (RunError.insufficientPadding insufficientPaddingMsg))) := by
  constructor
  · intro a input_len h
    simp [run, h]
  · intro a input_len hesp hlba hle
    simp [run, valid_lba_not_ne a hlba, hesp, hle]

/-- C1 witness: the amended theorem applied at concrete inputs. -/
theorem c1_failure_ordering_witness :
    run ⟨1024, true, 100⟩ 0 = ([], some RunError.invalidLba) ∧
    run ⟨1, true, 512⟩ 0 =
      ([Event.createTruncateOutput, Event.setLen (total_bytes ⟨1, true, 512⟩ 0)],
       some (RunError.insufficientPadding insufficientPaddingMsg)) :=
  ⟨c1_failure_ordering.1 ⟨1024, true, 100⟩ 0 (by decide),
   c1_failure_ordering.2 ⟨1, true, 512⟩ 0 rfl (Or.inl rfl) (by decide)⟩

/-- C5 (counterexample): with `padMiB = 1`, `lba = 512` and an ESP requested,
the run fails with the insufficient-padding error, and `padMiB = 2` is the
minimum padding that fits the ESP (the second conjunct shows 2 MiB
suffices), yet the error message contains no digit at all, so it does not
name the minimum padding needed. -/
theorem c5_message_counterexample :
    (run ⟨1, true, 512⟩ 0).2 =
      some (RunError.insufficientPadding insufficientPaddingMsg) ∧
    (run ⟨2, true, 512⟩ 0).2 = none ∧
    insufficientPaddingMsg.data.all (fun c => !c.isDigit) = true := by
  refine ⟨by decide, by decide, by decide⟩

/-- C5 (amended): whenever the ESP is requested (with a valid block size) and
`espStart >= espEnd`, the run fails with the insufficient-padding error
telling the user to increase `--pad-mib`; the message does not name the
specific minimum padding needed. -/
theorem c5_insufficient_padding_error (a : Args) (input_len : Nat)
    (hesp : a.esp = true) (hlba : a.lba = 512 ∨ a.lba = 4096)
    (hge : esp_start_lba a ≥ esp_end_lba a) :
    (run a input_len).2 =
      some (RunError.insufficientPadding insufficientPaddingMsg) := by
  have hle : esp_end_lba a ≤ esp_start_lba a := hge
  simp [run, valid_lba_not_ne a hlba, hesp, hle]

/-- C5 witness: the amended theorem applied at a concrete input. -/
theorem c5_insufficient_padding_error_witness :
    (run ⟨1, true, 4096⟩ 123).2 =
      some (RunError.insufficientPadding insufficientPaddingMsg) :=
  c5_insufficient_padding_error ⟨1, true, 4096⟩ 123 rfl (Or.inr rfl) (by decide)

/-- C10: the error branch of `format_esp_partition` that rejects a logical
block size exceeding 65535 is unreachable: whenever the run actually calls
`format_esp_partition` (a `formatEspCall` event is in the trace), the block
size passed has already survived the validation in `main`, so the guard
returns no error. -/
theorem c10_fat_guard_unreachable (a : Args) (input_len s z l : Nat)
    (h : Event.formatEspCall s z l ∈ (run a input_len).1) :
    format_esp_partition l = none := by
  by_cases hv : a.lba ≠ 512 ∧ a.lba ≠ 4096
  · simp [run, hv] at h
  · have hlba : a.lba = 512 ∨ a.lba = 4096 := by
      by_cases h5 : a.lba = 512
      · exact Or.inl h5
      · exact Or.inr (not_not.mp (fun h4 => hv ⟨h5, h4⟩))
    have hfmt : format_esp_partition a.lba = none := by
      rcases hlba with h' | h' <;> simp [format_esp_partition, h']
    cases he : a.esp with
    | false =>
      simp [run, hv, he] at h
    | true =>
      by_cases hpad : esp_end_lba a ≤ esp_start_lba a
      · simp [run, hv, he, hpad] at h
      · simp [run, hv, he, hpad, hfmt] at h
        obtain ⟨hs, hz, hl⟩ := h
        rw [hl]
        exact hfmt

/-- C10 witness: the theorem applied at a concrete run that does format an
ESP. -/
theorem c10_fat_guard_unreachable_witness :
    format_esp_partition 512 = none :=
  c10_fat_guard_unreachable ⟨1024, true, 512⟩ 10485760
    (mul64 2048 512) (esp_size_bytes ⟨1024, true, 512⟩) 512 (by decide)

/-- C6: whatever placement (`f`/`l` sectors) and random partition GUID the
collaborator's `add_partition` allocation assigned to the read-back entries
(`p1`, `p2`), the committed entries carry the planner's exact start sector,
end sector, and the fixed role GUID (`PART_UUID_ESP` for the ESP entry,
`PART_UUID_LINUX` for the data entry) — and hence two runs with identical
parameters but different collaborator allocations (`p1`,`p2` vs `q1`,`q2`)
commit identical partition identifiers. -/
theorem c6_committed_entries_exact (a : Args) (input_len : Nat)
    (p1 p2 q1 q2 : GptPartition) :
    (enforceExactLbasEsp a input_len p1 p2).1.first_lba = esp_start_lba a ∧
    (enforceExactLbasEsp a input_len p1 p2).1.last_lba = esp_end_lba a ∧
    (enforceExactLbasEsp a input_len p1 p2).1.part_guid = PART_UUID_ESP ∧
    (enforceExactLbasEsp a input_len p1 p2).2.first_lba = data_start_lba a ∧
    (enforceExactLbasEsp a input_len p1 p2).2.last_lba = data_end_lba a input_len ∧
    (enforceExactLbasEsp a input_len p1 p2).2.part_guid = PART_UUID_LINUX ∧
    (enforceExactLbasNoEsp a input_len q1).first_lba = data_start_lba a ∧
    (enforceExactLbasNoEsp a input_len q1).last_lba = data_end_lba a input_len ∧
    (enforceExactLbasNoEsp a input_len q1).part_guid = PART_UUID_LINUX ∧
    (enforceExactLbasEsp a input_len p1 p2).1.part_guid =
      (enforceExactLbasEsp a input_len q1 q2).1.part_guid ∧
    (enforceExactLbasEsp a input_len p1 p2).2.part_guid =
      (enforceExactLbasEsp a input_len q1 q2).2.part_guid :=
  ⟨rfl, rfl, rfl, rfl, rfl, rfl, rfl, rfl, rfl, rfl, rfl⟩

/-- C7: after a successful copy, the bytes of the output at offsets
`[dataStart, dataStart + inp.length)` — where `dataStart` is the byte offset
`data_start_lba * lba` the writer seeks to — equal the input bytes exactly,
and the output length is unchanged: the copy loop writes the input stream
verbatim at that offset until end of input. -/
theorem c7_copy_roundtrip (a : Args) (inp out : List Nat)
    (h : data_start_byte a + inp.length ≤ out.length) :
    ((copyLoop inp out (data_start_byte a)).drop (data_start_byte a)).take
        inp.length = inp ∧
    (copyLoop inp out (data_start_byte a)).length = out.length := by
  rw [copyLoop_eq_writeAt inp.length inp out (data_start_byte a) le_rfl h]
  have ht : (out.take (data_start_byte a)).length = data_start_byte a := by
    simp only [List.length_take]
    omega
  constructor
  · unfold writeAt
    rw [List.append_assoc, List.drop_left' ht, List.take_left]
  · exact writeAt_length out inp (data_start_byte a) h

/-- C7 witness: the theorem applied at a concrete copy. -/
theorem c7_copy_roundtrip_witness :
    ((copyLoop [7, 8] [0, 0, 0] (data_start_byte ⟨0, false, 512⟩)).drop
        (data_start_byte ⟨0, false, 512⟩)).take 2 = [7, 8] :=
  (c7_copy_roundtrip ⟨0, false, 512⟩ [7, 8] [0, 0, 0] (by decide)).1

/-- C2: for every run requesting an ESP (valid block size), the ESP branch
either aborts with a fatal error (the insufficient-padding bail, or a
collaborator error from an `add_partition` call that cannot place its
partition) or commits an ESP region that starts at the 1 MiB alignment
boundary `1048576 / lba`, ends exactly one sector before the data region
begins, and has its start strictly below its end.  The hypothesis `hfit` is
the minimal soundness property of any partition-table collaborator over a
device of `total_bytes` bytes: two entries it successfully places must
jointly fit on the device.  It is what rescues `padMiB = 0`: there the
guard at line 142 is bypassed (the `u64` underflow makes
`esp_end_lba = 2^64 - 1 > esp_start_lba`), but the requested ESP size wraps
to `2^64 - 2^20` bytes, which can never fit together with the data on the
(much smaller) output device, so some `add_partition` call fails and the
run still ends in a fatal error — an empty/negative ESP region is never
silently committed. -/
theorem c2_esp_region_valid_or_fatal (a : Args) (input_len : Nat)
    (esp_ok data_ok : Bool) (hlba : a.lba = 512 ∨ a.lba = 4096)
    (hfit : esp_ok = true → data_ok = true →
      esp_size_bytes a + input_len ≤ total_bytes a input_len) :
    espBranch a esp_ok data_ok = EspOutcome.bailInsufficientPadding ∨
    espBranch a esp_ok data_ok = EspOutcome.collaboratorError ∨
    (espBranch a esp_ok data_ok =
        EspOutcome.committed (esp_start_lba a) (esp_end_lba a) ∧
      esp_start_lba a = 1048576 / a.lba ∧
      esp_end_lba a + 1 = data_start_lba a ∧
      esp_start_lba a < esp_end_lba a) := by
  by_cases hpad : esp_end_lba a ≤ esp_start_lba a
  · exact Or.inl (by simp [espBranch, hpad])
  cases esp_ok with
  | false => exact Or.inr (Or.inl (by simp [espBranch, hpad]))
  | true =>
  cases data_ok with
  | false => exact Or.inr (Or.inl (by simp [espBranch, hpad]))
  | true =>
  refine Or.inr (Or.inr ⟨by simp [espBranch, hpad], rfl, ?_, not_le.mp hpad⟩)
  have hcap := hfit rfl rfl
  have htb : total_bytes a input_len < 18446744073709551616 := by
    unfold total_bytes mul64 U
    exact Nat.mod_lt _ (by norm_num)
  have hp0 : padding_lbas a ≠ 0 := by
    intro h0
    have hend : esp_end_lba a = U - 1 := by
      show sub64 (padding_lbas a) 1 = U - 1
      rw [h0]
      decide
    have hsize : esp_size_bytes a = U - 1048576 := by
      unfold esp_size_bytes esp_start_lba
      rw [hend]
      rcases hlba with h | h <;> rw [h] <;> decide
    rw [hsize] at hcap
    simp only [U] at hcap
    have hlen : input_len < 1048576 := by omega
    have htf : toF64 input_len = input_len := by
      unfold toF64
      rw [if_pos (le_trans (Nat.le_of_lt hlen) (by norm_num))]
    have hdl : data_lbas input_len a.lba ≤ 2048 := by
      unfold data_lbas
      rw [htf]
      rcases hlba with h | h <;> rw [h] <;> omega
    have hfl : footer_lbas a ≤ 2048 := by
      rcases hlba with h | h <;> simp [footer_lbas, h]
    have h4096 : a.lba ≤ 4096 := by rcases hlba with h | h <;> omega
    have hsmall : total_bytes a input_len ≤ 16777216 := by
      unfold total_bytes total_lbas add64 mul64
      rw [h0]
      have e1 : (0 + data_lbas input_len a.lba) % U = data_lbas input_len a.lba := by
        rw [Nat.zero_add]
        apply Nat.mod_eq_of_lt
        simp only [U]
        omega
      rw [e1]
      have e2 : (data_lbas input_len a.lba + footer_lbas a) % U
          = data_lbas input_len a.lba + footer_lbas a := by
        apply Nat.mod_eq_of_lt
        simp only [U]
        omega
      rw [e2]
      calc ((data_lbas input_len a.lba + footer_lbas a) * a.lba) % U
          ≤ (data_lbas input_len a.lba + footer_lbas a) * a.lba := Nat.mod_le _ _
        _ ≤ 4096 * 4096 := Nat.mul_le_mul (by omega) h4096
        _ = 16777216 := by norm_num
    omega
  have hlt : padding_lbas a < 18446744073709551616 := by
    simpa [U] using padding_lbas_lt a
  show sub64 (padding_lbas a) 1 + 1 = padding_lbas a
  simp only [sub64, U]
  omega

/-- C2 witness: the theorem applied at a concrete run (1 GiB padding, 10 MiB
input, `lba = 512`, both collaborator calls succeeding — the fit hypothesis
holds concretely), extracting the committed ESP region `[2048, 2097151]`
with its start strictly below its end and its end one sector before the
data start. -/
theorem c2_esp_region_valid_or_fatal_witness :
    espBranch ⟨1024, true, 512⟩ true true = EspOutcome.committed 2048 2097151 ∧
    (2048 : Nat) < 2097151 ∧ (2097151 : Nat) + 1 = data_start_lba ⟨1024, true, 512⟩ := by
  have h := c2_esp_region_valid_or_fatal ⟨1024, true, 512⟩ 10485760 true true
    (Or.inl rfl) (fun _ _ => by decide)
  rcases h with h | h | h
  · exact absurd h (by decide)
  · exact absurd h (by decide)
  · refine ⟨?_, by decide, by decide⟩
    have hs : esp_start_lba ⟨1024, true, 512⟩ = 2048 := by decide
    have hn : esp_end_lba ⟨1024, true, 512⟩ = 2097151 := by decide
    rw [← hs, ← hn]
    exact h.1
